import Mathlib

/-!
A shallow embedding of the health-data extraction pipeline in `src/main.py`
(an Apple Health `export.xml` to CSV converter), together with proofs about it.

Modelling conventions:
  * Python strings are Lean `String` (a wrapper around `List Char`); character-level
    work is done on `List Char`.
  * The process-wide module constant `RAND = str(random.random())` is modelled as an
    explicit parameter `rand : String` threaded through the functions that read it;
    within one modelled process run it is a single fixed string.
  * Python exceptions are modelled with `Except PyErr`; exception messages are
    abridged (the message text is not part of any claim, only the exception class).
  * Python `float(v)` is modelled as exact decimal-to-rational parsing (`pyFloat`):
    sign, digits, optional fraction, optional exponent, underscores between digits,
    surrounding whitespace.  Binary floating-point rounding of the literal is not
    modelled; `inf`/`infinity`/`nan` literals parse to `none` (non-finite), and
    `format_value` maps an infinity literal to `OverflowError` exactly as
    `round(float("inf"))` does, and everything else unparsable to `ValueError`
    (matching `float("x")` and `round(float("nan"))`).
  * Python 3 `round` is round-half-to-even, modelled by `pyRound` on rationals.
  * The regex `PREFIX_RE = re.compile("^HK.*TypeIdentifier(.+)$")` used with
    `re.match` is modelled by `PREFIX_RE_match`: `.` does not match a newline,
    the dollar anchor matches at the end of the string or just before one final
    trailing newline, and the greedy `HK.*` picks the last occurrence of
    `TypeIdentifier` that leaves a nonempty capture.
  * Python dicts of XML attributes and of open file handles are association lists;
    keys are unique in every real run, and lookup takes the first binding.
  * An open CSV file is modelled as the list of strings written to it, in order
    (each written string carries its trailing newline).  `collections.Counter` state
    is modelled by the list of counted keys in insertion order; `list(counter)`
    is `counterKeys` (keys in first-occurrence order).
  * Console output (`self.report`) is modelled only where a claim mentions it:
    the warning branch of `count_record_types` records its message in `warnings`.
-/

/-- Python exception classes that the modelled code can raise. -/
inductive PyErr where
  | valueError (msg : String) : PyErr
  | keyError (msg : String) : PyErr
  | overflowError (msg : String) : PyErr
deriving DecidableEq

instance {ε α : Type} [DecidableEq ε] [DecidableEq α] : DecidableEq (Except ε α) :=
  fun a b =>
  match a, b with
  | Except.error e1, Except.error e2 =>
    if h : e1 = e2 then isTrue (by rw [h]) else isFalse (by intro hc; cases hc; exact h rfl)
  | Except.error _, Except.ok _ => isFalse (by intro hc; cases hc)
  | Except.ok _, Except.error _ => isFalse (by intro hc; cases hc)
  | Except.ok v1, Except.ok v2 =>
    if h : v1 = v2 then isTrue (by rw [h]) else isFalse (by intro hc; cases hc; exact h rfl)

/-- Numeric value of a list of decimal digit characters (most significant first). -/
def digitsVal (l : List Char) : Nat :=
  l.foldl (fun a c => 10 * a + (c.toNat - '0'.toNat)) 0

/-- Python numeric-literal underscore rule: every underscore must sit directly
between two digits.  The first argument is the previous character, if any. -/
def usOK : Option Char → List Char → Bool
  | _, [] => true
  | p, c :: rest =>
    if c = '_' then
      (match p with | some q => q.isDigit | none => false) &&
      (match rest with | d :: _ => d.isDigit | [] => false) &&
      usOK (some c) rest
    else usOK (some c) rest

/-- Strip leading and trailing whitespace, as Python `float` does to its argument. -/
def stripWS (l : List Char) : List Char :=
  ((l.dropWhile Char.isWhitespace).reverse.dropWhile Char.isWhitespace).reverse

/-- Split an optional leading sign; returns (isNegative, rest). -/
def splitSign : List Char → (Bool × List Char)
  | '+' :: rest => (false, rest)
  | '-' :: rest => (true, rest)
  | l => (false, l)

/-- Whether the string is a Python infinity literal (`inf`/`infinity`, any case,
optional sign, surrounding whitespace): `float` accepts it and `round` then raises
`OverflowError` instead of `ValueError`. -/
def isInfLiteral (v : String) : Bool :=
  let body := (splitSign (stripWS v.toList)).2.map Char.toLower
  body == "inf".toList || body == "infinity".toList

/-- The exact value denoted by a decimal float literal: `num / 10 ^ shift`.
Kept unreduced so that every operation is plain integer arithmetic. -/
structure Dec where
  num : ℤ
  shift : ℕ
deriving DecidableEq

/-- The rational value of a `Dec`. -/
def Dec.toRat (d : Dec) : ℚ := (d.num : ℚ) / (10 : ℚ) ^ d.shift

/-- Mantissa and optional exponent of a float literal, after sign removal:
`digits [. digits] [(e|E) [sign] digits]`, at least one mantissa digit. -/
def parseMantissaExp (l : List Char) : Option Dec :=
  let s1 := l.span Char.isDigit
  let s2 :=
    match s1.2 with
    | '.' :: rest => rest.span Char.isDigit
    | _ => (([] : List Char), s1.2)
  if s1.1.isEmpty && s2.1.isEmpty then none
  else
    let num0 : ℕ := digitsVal (s1.1 ++ s2.1)
    let shift0 : ℕ := s2.1.length
    match s2.2 with
    | [] => some ⟨num0, shift0⟩
    | e :: rest =>
      if e = 'e' || e = 'E' then
        let sg := splitSign rest
        let s3 := sg.2.span Char.isDigit
        if s3.1.isEmpty || !s3.2.isEmpty then none
        else if sg.1 then some ⟨num0, shift0 + digitsVal s3.1⟩
        else some ⟨(num0 * 10 ^ digitsVal s3.1 : ℕ), shift0⟩
      else none

/-- Python `float(v)` for finite values, as an exact scaled decimal (`none` when
`float` raises `ValueError` or returns a non-finite value). -/
def pyFloat (v : String) : Option Dec :=
  let t := stripWS v.toList
  if !usOK none t then none
  else
    let t2 := t.filter (fun c => c ≠ '_')
    let sg := splitSign t2
    match parseMantissaExp sg.2 with
    | none => none
    | some d => some (if sg.1 then ⟨-d.num, d.shift⟩ else d)

/-- Python 3 `round` to an integer: round half to even, computed on the exact
decimal by Euclidean division (the divisor `10 ^ shift` is positive, so
`Int.ediv` is floor division here). -/
def pyRound (d : Dec) : ℤ :=
  if 2 * d.num.emod ((10 : ℤ) ^ d.shift) < (10 : ℤ) ^ d.shift then
    d.num.ediv ((10 : ℤ) ^ d.shift)
  else if (10 : ℤ) ^ d.shift < 2 * d.num.emod ((10 : ℤ) ^ d.shift) then
    d.num.ediv ((10 : ℤ) ^ d.shift) + 1
  else if (d.num.ediv ((10 : ℤ) ^ d.shift)).emod 2 = 0 then
    d.num.ediv ((10 : ℤ) ^ d.shift)
  else d.num.ediv ((10 : ℤ) ^ d.shift) + 1

/-- `format_value(value, datatype)` from `src/main.py`: `value is None or datatype
== "s"` yields the process-wide `RAND` string (here the parameter `rand`); `"n"`
yields `str(round(float(value)))`; `"d"` yields the value unchanged; anything else
raises `KeyError`. -/
def format_value (rand : String) (value : Option String) (datatype : Char) :
    Except PyErr String :=
  match value with
  | none => Except.ok rand
  | some v =>
    if datatype = 's' then Except.ok rand
    else if datatype = 'n' then
      match pyFloat v with
      | some d => Except.ok (toString (pyRound d))
      | none =>
        if isInfLiteral v then
          Except.error (PyErr.overflowError "cannot convert float infinity to integer")
        else
          Except.error (PyErr.valueError ("could not convert string to float: " ++ v))
    else if datatype = 'd' then Except.ok v
    else Except.error (PyErr.keyError ("Unexpected format value: " ++ datatype.toString))

/-- The literal `TypeIdentifier` from `PREFIX_RE`. -/
def tyid : List Char := "TypeIdentifier".toList

/-- Greedy part of `PREFIX_RE`: the capture of `.*TypeIdentifier(.+)` on a
newline-free list, preferring the latest occurrence of `TypeIdentifier` that
leaves a nonempty capture (the backtracking behaviour of the greedy `.*`). -/
def greedyTail : List Char → Option (List Char)
  | [] => none
  | c :: cs =>
    match greedyTail cs with
    | some b => some b
    | none =>
      if tyid.isPrefixOf (c :: cs) then
        let b := (c :: cs).drop tyid.length
        if b.isEmpty then none else some b
      else none

/-- The region a Python non-multiline `$` can close: the whole string, or the
string minus one final trailing newline. -/
def stripTrailingNewline (l : List Char) : List Char :=
  if l.getLast? = some '\n' then l.dropLast else l

/-- `re.match(PREFIX_RE, s)` with `PREFIX_RE = "^HK.*TypeIdentifier(.+)$"`:
returns the content of capture group 1 when the string matches. -/
def PREFIX_RE_match (l : List Char) : Option (List Char) :=
  match stripTrailingNewline l with
  | 'H' :: 'K' :: rest =>
    if rest.contains '\n' then none else greedyTail rest
  | _ => none

/-- Module-level toggle `ABBREVIATE = True`. -/
def ABBREVIATE : Bool := true

/-- `abbreviate(s, enabled=ABBREVIATE)`: the capture of `PREFIX_RE` when enabled
and matching, otherwise `s` unchanged. -/
def abbreviate (s : String) (enabled : Bool := ABBREVIATE) : String :=
  match PREFIX_RE_match s.toList with
  | some b => if enabled then String.mk b else s
  | none => s

/-- A direct child of the XML document root: a tag plus its attribute dict. -/
structure RawNode where
  tag : String
  attrib : List (String × String)
deriving DecidableEq

/-- Update the binding of key `k` in an association list (Python dict item
assignment for a present key). -/
def setAssoc {α : Type} (l : List (String × α)) (k : String) (v : α) :
    List (String × α) :=
  l.map (fun p => if p.1 = k then (k, v) else p)

/-- One step of `abbreviate_types`: a `Record` node with a `type` attribute gets
that attribute abbreviated in place; every other node is untouched. -/
def abbreviateNode (node : RawNode) : RawNode :=
  if node.tag = "Record" then
    match node.attrib.lookup "type" with
    | some t => { node with attrib := setAssoc node.attrib "type" (abbreviate t ABBREVIATE) }
    | none => node
  else node

/-- `HealthDataExtractor.abbreviate_types`. -/
def abbreviate_types (nodes : List RawNode) : List RawNode :=
  nodes.map abbreviateNode

/-- State built by `count_record_types`: the two `Counter`s (as key lists in
insertion order) plus the reported warning messages for unexpected tags. -/
structure Classification where
  record_types : List String
  other_types : List String
  warnings : List String
deriving DecidableEq

/-- The empty classification state. -/
def initClassification : Classification := ⟨[], [], []⟩

/-- One loop iteration of `count_record_types`: `Record` nodes index
`attrib["type"]` unguarded (a `KeyError` when absent); `ActivitySummary` and
`Workout` count under their tag; `Export`/`Me` are skipped silently; any other
tag is reported as a warning. -/
def classifyNode (st : Classification) (node : RawNode) : Except PyErr Classification :=
  if node.tag = "Record" then
    match node.attrib.lookup "type" with
    | some t => Except.ok { st with record_types := st.record_types ++ [t] }
    | none => Except.error (PyErr.keyError "type")
  else if node.tag = "ActivitySummary" ∨ node.tag = "Workout" then
    Except.ok { st with other_types := st.other_types ++ [node.tag] }
  else if node.tag = "Export" ∨ node.tag = "Me" then
    Except.ok st
  else
    Except.ok { st with warnings :=
      st.warnings ++ ["Unexpected node of type " ++ node.tag ++ "."] }

/-- `HealthDataExtractor.count_record_types`, folded over the node list. -/
def count_record_types (st : Classification) : List RawNode → Except PyErr Classification
  | [] => Except.ok st
  | node :: rest =>
    match classifyNode st node with
    | Except.error e => Except.error e
    | Except.ok st2 => count_record_types st2 rest

/-- `RECORD_FIELDS` (the commented-out entries of the source are omitted there too). -/
def RECORD_FIELDS : List (String × Char) :=
  [("device", 's'), ("startDate", 'd'), ("value", 'n')]

/-- `ACTIVITY_SUMMARY_FIELDS`. -/
def ACTIVITY_SUMMARY_FIELDS : List (String × Char) :=
  [("dateComponents", 'd'), ("activeEnergyBurned", 'n'), ("activeEnergyBurnedGoal", 'n'),
   ("activeEnergyBurnedUnit", 's'), ("appleExerciseTime", 's'), ("appleExerciseTimeGoal", 's'),
   ("appleStandHours", 'n'), ("appleStandHoursGoal", 'n')]

/-- `WORKOUT_FIELDS`. -/
def WORKOUT_FIELDS : List (String × Char) :=
  [("sourceName", 's'), ("sourceVersion", 's'), ("device", 's'), ("creationDate", 'd'),
   ("startDate", 'd'), ("endDate", 'd'), ("workoutActivityType", 's'), ("duration", 'n'),
   ("durationUnit", 's'), ("totalDistance", 'n'), ("totalDistanceUnit", 's'),
   ("totalEnergyBurned", 'n'), ("totalEnergyBurnedUnit", 's')]

/-- `FIELDS`: family name to ordered schema. -/
def FIELDS : List (String × List (String × Char)) :=
  [("Record", RECORD_FIELDS), ("ActivitySummary", ACTIVITY_SUMMARY_FIELDS),
   ("Workout", WORKOUT_FIELDS)]

/-- The set of open output files: kind name to the list of strings written so far. -/
abbrev Handles := List (String × List String)

/-- The `headerType` selection in `open_for_writing`. -/
def headerType (kind : String) : String :=
  if kind = "Workout" ∨ kind = "ActivitySummary" then kind else "Record"

/-- The header string written on opening a file for `kind` (with its newline).
The `getD` default is never taken: `headerType` always returns a `FIELDS` key. -/
def headerLine (kind : String) : String :=
  "username," ++
    String.intercalate "," (((FIELDS.lookup (headerType kind)).getD []).map Prod.fst) ++ "\n"

/-- `list(counter)` for a `collections.Counter` built by repeated increments:
the distinct keys in first-occurrence order. -/
def counterKeys (l : List String) : List String :=
  l.foldl (fun acc x => if x ∈ acc then acc else acc ++ [x]) []

/-- The body of the `open_for_writing` loop for one kind: only the hard-coded
filter value `"HeartRate"` gets a file, opened holding its header line. -/
def openEntry (kind : String) : Option (String × List String) :=
  if kind = "HeartRate" then some (kind, [headerLine kind]) else none

/-- `HealthDataExtractor.open_for_writing`: one handle per kind in
`list(record_types) + list(other_types)` that passes the `"HeartRate"` filter.
(The file-system path is not modelled; `self.paths` is created empty and never
appended to in the source.) -/
def open_for_writing (cls : Classification) : Handles :=
  (counterKeys cls.record_types ++ counterKeys cls.other_types).filterMap openEntry

/-- The list comprehension in `write_records`: `format_value(attributes.get(field),
datatype)` over the schema in order; the first exception propagates. -/
def formatValues (rand : String) (attrib : List (String × String)) :
    List (String × Char) → Except PyErr (List String)
  | [] => Except.ok []
  | fd :: rest =>
    match format_value rand (attrib.lookup fd.1) fd.2 with
    | Except.error e => Except.error e
    | Except.ok v =>
      match formatValues rand attrib rest with
      | Except.error e => Except.error e
      | Except.ok vs => Except.ok (v :: vs)

/-- The CSV line built for one node in `write_records`:
`user + "," + ",".join(values) + "\n"`, schema taken from `FIELDS[node.tag]`. -/
def renderRow (rand user : String) (node : RawNode) : Except PyErr String :=
  match FIELDS.lookup node.tag with
  | none => Except.error (PyErr.keyError node.tag)
  | some fields =>
    match formatValues rand node.attrib fields with
    | Except.error e => Except.error e
    | Except.ok values => Except.ok (user ++ "," ++ String.intercalate "," values ++ "\n")

/-- The `kind` computed in `write_records`: `attributes["type"]` for `Record`
nodes (`none` models the `KeyError` when absent), the tag otherwise. -/
def nodeKind (node : RawNode) : Option String :=
  if node.tag = "Record" then node.attrib.lookup "type" else some node.tag

/-- One loop iteration of `write_records`: nodes whose tag is a `FIELDS` key and
whose kind is `"HeartRate"` get a row rendered and appended through
`self.handles[kind]`; the handle lookup is a `KeyError` when absent. -/
def writeNode (rand user : String) (handles : Handles) (node : RawNode) :
    Except PyErr Handles :=
  if node.tag = "Record" ∨ node.tag = "ActivitySummary" ∨ node.tag = "Workout" then
    match nodeKind node with
    | none => Except.error (PyErr.keyError "type")
    | some kind =>
      if kind = "HeartRate" then
        match renderRow rand user node with
        | Except.error e => Except.error e
        | Except.ok line =>
          match handles.lookup kind with
          | none => Except.error (PyErr.keyError kind)
          | some lines => Except.ok (setAssoc handles kind (lines ++ [line]))
      else Except.ok handles
  else Except.ok handles

/-- `HealthDataExtractor.write_records`, folded over the node list. -/
def write_records (rand user : String) (handles : Handles) :
    List RawNode → Except PyErr Handles
  | [] => Except.ok handles
  | node :: rest =>
    match writeNode rand user handles node with
    | Except.error e => Except.error e
    | Except.ok h2 => write_records rand user h2 rest

/-- The whole per-user pipeline: `__init__` (abbreviation pass, then
classification) followed by `extract` (`open_for_writing`, `write_records`;
`close_files` only closes handles and is content-free). -/
def runExtractor (rand user : String) (rawNodes : List RawNode) :
    Except PyErr Handles :=
  let nodes := abbreviate_types rawNodes
  match count_record_types initClassification nodes with
  | Except.error e => Except.error e
  | Except.ok cls => write_records rand user (open_for_writing cls) nodes

/-- A node whose classified kind is `"HeartRate"`: only `Record` nodes can
classify there, via their (post-abbreviation) `type` attribute. -/
def isHeartRateNode (node : RawNode) : Bool :=
  node.tag == "Record" && node.attrib.lookup "type" == some "HeartRate"

/-- Row rendering over a node list, first failure propagating (used to state
what `write_records` appends). -/
def renderRows (rand user : String) : List RawNode → Except PyErr (List String)
  | [] => Except.ok []
  | node :: rest =>
    match renderRow rand user node with
    | Except.error e => Except.error e
    | Except.ok line =>
      match renderRows rand user rest with
      | Except.error e => Except.error e
      | Except.ok rows => Except.ok (line :: rows)

/-! ## Supporting lemmas -/

/-- Rounding half to even lands on a nearest integer: the rounded value is within
one half of the exact decimal value. -/
theorem pyRound_nearest (d : Dec) : |Dec.toRat d - (pyRound d : ℚ)| ≤ 1 / 2 := by
  unfold pyRound Dec.toRat
  have hp : (0 : ℤ) < (10 : ℤ) ^ d.shift := pow_pos (by norm_num) _
  have hdiv := Int.ediv_add_emod d.num ((10 : ℤ) ^ d.shift)
  have hr0 := Int.emod_nonneg d.num (ne_of_gt hp)
  have hrlt := Int.emod_lt_of_pos d.num hp
  set p : ℤ := (10 : ℤ) ^ d.shift with hp_def
  set f : ℤ := d.num.ediv p with hf_def
  set r : ℤ := d.num.emod p with hr_def
  have hpq : (0 : ℚ) < (p : ℚ) := by exact_mod_cast hp
  have hPQ : ((p : ℤ) : ℚ) = (10 : ℚ) ^ d.shift := by rw [hp_def]; push_cast; ring
  rw [← hPQ]
  have hnumQ : (d.num : ℚ) = (p : ℚ) * (f : ℚ) + (r : ℚ) := by exact_mod_cast hdiv.symm
  have key : (d.num : ℚ) / (p : ℚ) = (f : ℚ) + (r : ℚ) / (p : ℚ) := by
    rw [hnumQ]; field_simp; ring
  have hr0q : (0 : ℚ) ≤ (r : ℚ) := by exact_mod_cast hr0
  have hrltq : (r : ℚ) < (p : ℚ) := by exact_mod_cast hrlt
  have hx0 : (0 : ℚ) ≤ (r : ℚ) / (p : ℚ) := div_nonneg hr0q (le_of_lt hpq)
  have hx1 : (r : ℚ) / (p : ℚ) < 1 := (div_lt_one hpq).mpr hrltq
  split_ifs with h1 h2 h3
  · have h1q : 2 * (r : ℚ) < (p : ℚ) := by exact_mod_cast h1
    have hhalf : (r : ℚ) / (p : ℚ) ≤ 1 / 2 := by
      rw [div_le_iff₀ hpq]; linarith
    rw [abs_le]; constructor <;> [skip; skip] <;> (rw [key]; push_cast; linarith)
  · have h2q : (p : ℚ) < 2 * (r : ℚ) := by exact_mod_cast h2
    have hhalf : 1 / 2 ≤ (r : ℚ) / (p : ℚ) := by
      rw [le_div_iff₀ hpq]; linarith
    rw [abs_le]; constructor <;> [skip; skip] <;> (rw [key]; push_cast; linarith)
  · have heq : 2 * r = p := by omega
    have heqq : 2 * (r : ℚ) = (p : ℚ) := by exact_mod_cast heq
    have hhalf : (r : ℚ) / (p : ℚ) = 1 / 2 := by
      rw [div_eq_iff (ne_of_gt hpq)]; linarith
    rw [abs_le]; constructor <;> [skip; skip] <;> (rw [key]; push_cast; linarith)
  · have heq : 2 * r = p := by omega
    have heqq : 2 * (r : ℚ) = (p : ℚ) := by exact_mod_cast heq
    have hhalf : (r : ℚ) / (p : ℚ) = 1 / 2 := by
      rw [div_eq_iff (ne_of_gt hpq)]; linarith
    rw [abs_le]; constructor <;> [skip; skip] <;> (rw [key]; push_cast; linarith)

/-! ## Claims about the Value Formatter -/

/-- Claim C1: whenever the attribute value is absent or the datatype is the
string type, `format_value` returns the process-wide random string `RAND`
(modelled by the `rand` parameter); in particular a missing value and any
string-typed value produce the same output, so string-typed field values are
never written verbatim. -/
theorem format_value_rand_c1 :
    (∀ (rand : String) (value : Option String) (datatype : Char),
        value = none ∨ datatype = 's' → format_value rand value datatype = Except.ok rand) ∧
    (∀ (rand v : String) (datatype : Char),
        format_value rand (some v) 's' = format_value rand none datatype) := by
  constructor
  · rintro rand value datatype (rfl | rfl)
    · rfl
    · cases value with
      | none => rfl
      | some v => rfl
  · intro rand v datatype; rfl

/-- Witness for C1 at concrete inputs. -/
theorem format_value_rand_c1_witness :
    format_value "0.42" (some "iPhone") 's' = Except.ok "0.42" ∧
    format_value "0.42" none 'd' = Except.ok "0.42" :=
  ⟨format_value_rand_c1.1 "0.42" (some "iPhone") 's' (Or.inr rfl),
   format_value_rand_c1.1 "0.42" none 'd' (Or.inl rfl)⟩

/-- Claim C3: with datatype number, `format_value` parses the value as an exact
decimal float literal, rounds it to a nearest integer (half to even), and
returns that integer's decimal string; `"3.6"` gives `"4"`, `"3.4"` gives
`"3"`; a non-numeric value fails with the `ValueError` class. -/
theorem format_value_number_c3 :
    (∀ rand : String, format_value rand (some "3.6") 'n' = Except.ok "4") ∧
    (∀ rand : String, format_value rand (some "3.4") 'n' = Except.ok "3") ∧
    (∀ (rand v : String) (d : Dec), pyFloat v = some d →
        format_value rand (some v) 'n' = Except.ok (toString (pyRound d)) ∧
        |Dec.toRat d - (pyRound d : ℚ)| ≤ 1 / 2) ∧
    (∀ rand v : String, pyFloat v = none → isInfLiteral v = false →
        format_value rand (some v) 'n' =
          Except.error (PyErr.valueError ("could not convert string to float: " ++ v))) := by
  refine ⟨fun rand => rfl, fun rand => rfl, ?_, ?_⟩
  · intro rand v d h
    refine ⟨?_, pyRound_nearest d⟩
    simp [format_value, h]
  · intro rand v h hinf
    simp [format_value, h, hinf]

/-- Witness for C3 at concrete inputs (including a half-to-even tie). -/
theorem format_value_number_c3_witness :
    (format_value "0.1" (some "2.5") 'n' = Except.ok (toString (pyRound ⟨25, 1⟩)) ∧
      |Dec.toRat ⟨25, 1⟩ - (pyRound ⟨25, 1⟩ : ℚ)| ≤ 1 / 2) ∧
    format_value "0.1" (some "x2") 'n' =
      Except.error (PyErr.valueError ("could not convert string to float: " ++ "x2")) :=
  ⟨format_value_number_c3.2.2.1 "0.1" "2.5" ⟨25, 1⟩ (by decide),
   format_value_number_c3.2.2.2 "0.1" "x2" (by decide) (by decide)⟩

/-- Claim C8: with datatype datetime, `format_value` returns the value
unchanged; any datatype outside string, number and datetime fails with the
`KeyError` configuration error; and that branch is unreachable for the
datatypes declared in the schema registry `FIELDS`. -/
theorem format_value_datetime_c8 :
    (∀ rand v : String, format_value rand (some v) 'd' = Except.ok v) ∧
    (∀ (rand v : String) (datatype : Char), datatype ≠ 's' → datatype ≠ 'n' → datatype ≠ 'd' →
        format_value rand (some v) datatype =
          Except.error (PyErr.keyError ("Unexpected format value: " ++ datatype.toString))) ∧
    (∀ fam ∈ FIELDS, ∀ fd ∈ fam.2, fd.2 = 's' ∨ fd.2 = 'n' ∨ fd.2 = 'd') := by
  refine ⟨fun rand v => rfl, ?_, by decide⟩
  intro rand v dt h1 h2 h3
  simp [format_value, h1, h2, h3]

/-- Witness for C8 at concrete inputs. -/
theorem format_value_datetime_c8_witness :
    format_value "0.42" (some "2020-01-01 10:00") 'd' = Except.ok "2020-01-01 10:00" ∧
    format_value "0.42" (some "v") 'x' =
      Except.error (PyErr.keyError ("Unexpected format value: " ++ Char.toString 'x')) :=
  ⟨format_value_datetime_c8.1 "0.42" "2020-01-01 10:00",
   format_value_datetime_c8.2.1 "0.42" "v" 'x' (by decide) (by decide) (by decide)⟩

/-! ## Lemmas about the abbreviation regex -/

/-- If the greedy scan fails on a cons, it fails on the tail. -/
theorem greedyTail_tail_none {c : Char} {cs : List Char}
    (h : greedyTail (c :: cs) = none) : greedyTail cs = none := by
  cases hcs : greedyTail cs with
  | none => rfl
  | some b => rw [greedyTail, hcs] at h; cases h

/-- If the greedy scan fails, it fails on every suffix. -/
theorem greedyTail_drop_none :
    ∀ (n : ℕ) (l : List Char), greedyTail l = none → greedyTail (l.drop n) = none := by
  intro n
  induction n with
  | zero => intro l h; simpa using h
  | succ m ih =>
    intro l h
    cases l with
    | nil => simpa using h
    | cons c cs =>
      rw [List.drop_succ_cons]
      exact ih cs (greedyTail_tail_none h)

/-- The captured tail is always a suffix of the scanned list. -/
theorem greedyTail_some_drop {l b : List Char} (h : greedyTail l = some b) :
    ∃ n, b = l.drop n := by
  induction l with
  | nil => cases h
  | cons c cs ih =>
    rw [greedyTail] at h
    cases hcs : greedyTail cs with
    | some b2 =>
      rw [hcs] at h
      cases h
      obtain ⟨n, hn⟩ := ih hcs
      exact ⟨n + 1, by simpa using hn⟩
    | none =>
      rw [hcs] at h
      by_cases hpre : tyid.isPrefixOf (c :: cs)
      · rw [if_pos hpre] at h
        by_cases hemp : ((c :: cs).drop tyid.length).isEmpty
        · simp only [hemp, if_pos] at h; cases h
        · simp only [hemp, if_neg, Bool.false_eq_true, not_false_eq_true, ite_false] at h
          cases h
          exact ⟨tyid.length, rfl⟩
      · rw [if_neg hpre] at h; cases h

/-- The captured tail of a successful greedy scan contains no later valid
occurrence: scanning it again fails.  This is the greediness of `HK.*`. -/
theorem greedyTail_some_none {l b : List Char} (h : greedyTail l = some b) :
    greedyTail b = none := by
  induction l with
  | nil => cases h
  | cons c cs ih =>
    rw [greedyTail] at h
    cases hcs : greedyTail cs with
    | some b2 =>
      rw [hcs] at h; cases h; exact ih hcs
    | none =>
      rw [hcs] at h
      by_cases hpre : tyid.isPrefixOf (c :: cs)
      · rw [if_pos hpre] at h
        by_cases hemp : ((c :: cs).drop tyid.length).isEmpty
        · simp only [hemp, if_pos] at h; cases h
        · simp only [hemp, if_neg, Bool.false_eq_true, not_false_eq_true, ite_false] at h
          cases h
          have h14 : tyid.length = 14 := rfl
          rw [h14, List.drop_succ_cons]
          exact greedyTail_drop_none 13 cs hcs
      · rw [if_neg hpre] at h; cases h

/-- Boolean `contains` is false exactly when the element is absent. -/
theorem contains_false_iff {l : List Char} {a : Char} : l.contains a = false ↔ a ∉ l := by
  rw [← Bool.not_eq_true, List.contains_iff_exists_mem_beq]
  simp

/-- A newline-free list is unchanged by trailing-newline stripping. -/
theorem stripTrailingNewline_of_no_newline {l : List Char} (h : l.contains '\n' = false) :
    stripTrailingNewline l = l := by
  rw [stripTrailingNewline, if_neg]
  intro hl
  exact (contains_false_iff.mp h) (List.mem_of_getLast?_eq_some hl)

/-- Newline-freeness transfers to every suffix. -/
theorem contains_false_of_drop {l : List Char} (n : ℕ) (h : l.contains '\n' = false) :
    (l.drop n).contains '\n' = false := by
  rw [contains_false_iff] at h ⊢
  intro hmem
  exact h (List.drop_subset n l hmem)

/-- The capture of a successful `PREFIX_RE` match never matches `PREFIX_RE`
again: the greedy `HK.*` already consumed every earlier `TypeIdentifier`. -/
theorem PREFIX_RE_match_capture_none {l b : List Char}
    (h : PREFIX_RE_match l = some b) : PREFIX_RE_match b = none := by
  rw [PREFIX_RE_match] at h
  split at h
  case h_2 => cases h
  case h_1 rest heq =>
    split at h
    · cases h
    case isFalse hnl =>
      have hnl2 : rest.contains '\n' = false := by
        cases hcontains : rest.contains '\n' with
        | false => rfl
        | true => exact absurd hcontains hnl
      obtain ⟨n, hn⟩ := greedyTail_some_drop h
      have hbnl : b.contains '\n' = false := by rw [hn]; exact contains_false_of_drop n hnl2
      have hgb : greedyTail b = none := greedyTail_some_none h
      rw [PREFIX_RE_match, stripTrailingNewline_of_no_newline hbnl]
      split
      case h_2 => rfl
      case h_1 u rest2 =>
        have h2 : rest2.contains '\n' = false := by
          simpa using contains_false_of_drop 2 hbnl
        rw [if_neg]
        · exact greedyTail_tail_none (greedyTail_tail_none hgb)
        · intro hcon
          rw [h2] at hcon
          cases hcon

/-- Updating a present key makes lookup return the new value. -/
theorem lookup_setAssoc {α : Type} {l : List (String × α)} {k : String} {w : α} (v : α)
    (h : l.lookup k = some w) : (setAssoc l k v).lookup k = some v := by
  induction l with
  | nil => cases h
  | cons p rest ih =>
    obtain ⟨a, x⟩ := p
    by_cases hk : a = k
    · subst hk
      have hs : setAssoc ((a, x) :: rest) a v = (a, v) :: setAssoc rest a v := by
        show (if a = a then (a, v) else (a, x)) :: setAssoc rest a v = _
        rw [if_pos rfl]
      rw [hs]
      exact List.lookup_cons_self
    · have hne : (k == a) = false := beq_eq_false_iff_ne.mpr (Ne.symm hk)
      have hs : setAssoc ((a, x) :: rest) k v = (a, x) :: setAssoc rest k v := by
        show (if a = k then (k, v) else (a, x)) :: setAssoc rest k v = _
        rw [if_neg hk]
      rw [hs, List.lookup_cons, hne]
      rw [List.lookup_cons, hne] at h
      exact ih h

/-- Unfolding lemma: a `Record` node with a present type attribute gets it
abbreviated in place. -/
theorem abbreviateNode_record_some {n0 : RawNode} {t0 : String} (h0 : n0.tag = "Record")
    (hty : n0.attrib.lookup "type" = some t0) :
    abbreviateNode n0 =
      { n0 with attrib := setAssoc n0.attrib "type" (abbreviate t0 ABBREVIATE) } := by
  simp only [abbreviateNode, if_pos h0, hty]

/-- Unfolding lemma: a `Record` node without a type attribute is untouched. -/
theorem abbreviateNode_record_none {n0 : RawNode} (h0 : n0.tag = "Record")
    (hty : n0.attrib.lookup "type" = none) : abbreviateNode n0 = n0 := by
  simp only [abbreviateNode, if_pos h0, hty]

/-- Unfolding lemma: a node that is not a `Record` is untouched. -/
theorem abbreviateNode_other {n0 : RawNode} (h0 : ¬ n0.tag = "Record") :
    abbreviateNode n0 = n0 := by
  simp only [abbreviateNode, if_neg h0]

/-- Unfolding lemma: `abbreviate` on a match returns the capture. -/
theorem abbreviate_of_match {s : String} {b : List Char}
    (h : PREFIX_RE_match s.toList = some b) : abbreviate s true = String.mk b := by
  have h2 : PREFIX_RE_match s.data = some b := h
  simp [abbreviate, h2]

/-- Unfolding lemma: `abbreviate` on a non-match returns the string unchanged. -/
theorem abbreviate_of_none {s : String} (h : PREFIX_RE_match s.toList = none) :
    abbreviate s true = s := by
  have h2 : PREFIX_RE_match s.data = none := h
  simp [abbreviate, h2]

/-! ## Claims about the Type Abbreviator -/

/-- Claim C7: `abbreviate` returns the suffix captured by the `HK ...
TypeIdentifier` pattern when the string matches, returns the string unchanged
when it does not match or when abbreviation is disabled, and after the
load-time abbreviation pass no `Record` node's type attribute matches the
prefix pattern any more. -/
theorem abbreviate_c7 :
    (∀ (s : String) (b : List Char),
        PREFIX_RE_match s.toList = some b → abbreviate s true = String.mk b) ∧
    (∀ s : String, PREFIX_RE_match s.toList = none → abbreviate s true = s) ∧
    (∀ s : String, abbreviate s false = s) ∧
    (∀ (nodes : List RawNode) (node : RawNode) (t : String),
        node ∈ abbreviate_types nodes → node.tag = "Record" →
        node.attrib.lookup "type" = some t → PREFIX_RE_match t.toList = none) := by
  refine ⟨fun s b h => abbreviate_of_match h, fun s h => abbreviate_of_none h, ?_, ?_⟩
  · intro s
    rw [abbreviate]
    cases h : PREFIX_RE_match s.toList <;> simp
  · intro nodes node t hmem htag hlook
    obtain ⟨n0, _, rfl⟩ := List.mem_map.mp hmem
    by_cases h0 : n0.tag = "Record"
    · cases hty : n0.attrib.lookup "type" with
      | none =>
        rw [abbreviateNode_record_none h0 hty] at hlook
        rw [hty] at hlook
        cases hlook
      | some t0 =>
        rw [abbreviateNode_record_some h0 hty] at hlook
        simp only at hlook
        rw [lookup_setAssoc (abbreviate t0 ABBREVIATE) hty] at hlook
        cases hlook
        show PREFIX_RE_match (abbreviate t0 ABBREVIATE).toList = none
        rw [show ABBREVIATE = true from rfl]
        cases hm : PREFIX_RE_match t0.toList with
        | none => rw [abbreviate_of_none hm]; exact hm
        | some b0 =>
          rw [abbreviate_of_match hm]
          exact PREFIX_RE_match_capture_none hm
    · rw [abbreviateNode_other h0] at htag
      exact absurd htag h0

/-- Witness for C7 at concrete inputs. -/
theorem abbreviate_c7_witness :
    abbreviate "HKQuantityTypeIdentifierHeartRate" true =
      String.mk ['H', 'e', 'a', 'r', 't', 'R', 'a', 't', 'e'] ∧
    abbreviate "BodyMass" true = "BodyMass" ∧
    abbreviate "HKQuantityTypeIdentifierHeartRate" false = "HKQuantityTypeIdentifierHeartRate" ∧
    PREFIX_RE_match (String.toList "HeartRate") = none :=
  ⟨abbreviate_c7.1 "HKQuantityTypeIdentifierHeartRate"
      ['H', 'e', 'a', 'r', 't', 'R', 'a', 't', 'e'] (by decide),
   abbreviate_c7.2.1 "BodyMass" (by decide),
   abbreviate_c7.2.2.1 "HKQuantityTypeIdentifierHeartRate",
   abbreviate_c7.2.2.2 [⟨"Record", [("type", "HKQuantityTypeIdentifierHeartRate")]⟩]
      ⟨"Record", [("type", "HeartRate")]⟩ "HeartRate" (by decide) rfl (by decide)⟩

/-- Claim C9: `abbreviate` with abbreviation enabled is idempotent, because the
suffix captured by the greedy prefix pattern never matches the pattern again. -/
theorem abbreviate_idem_c9 :
    (∀ s : String, abbreviate (abbreviate s true) true = abbreviate s true) ∧
    (∀ l b : List Char, PREFIX_RE_match l = some b → PREFIX_RE_match b = none) := by
  constructor
  · intro s
    cases h : PREFIX_RE_match s.toList with
    | none =>
      rw [abbreviate_of_none h, abbreviate_of_none h]
    | some b =>
      rw [abbreviate_of_match h]
      have hb : PREFIX_RE_match (String.mk b).toList = none :=
        PREFIX_RE_match_capture_none h
      rw [abbreviate_of_none hb]
  · intro l b h
    exact PREFIX_RE_match_capture_none h

/-- Witness for C9's conditional part at a concrete input. -/
theorem abbreviate_idem_c9_witness :
    PREFIX_RE_match (String.toList "HKCategoryTypeIdentifierSleepAnalysis") =
      some (String.toList "SleepAnalysis") ∧
    PREFIX_RE_match (String.toList "SleepAnalysis") = none :=
  ⟨by decide,
   abbreviate_idem_c9.2 (String.toList "HKCategoryTypeIdentifierSleepAnalysis")
     (String.toList "SleepAnalysis") (by decide)⟩

/-! ## Lemmas about classification -/

/-- Unfolding lemma: classifying a `Record` node with a type attribute counts it. -/
theorem classifyNode_record_some {st : Classification} {node : RawNode} {t : String}
    (h0 : node.tag = "Record") (hty : node.attrib.lookup "type" = some t) :
    classifyNode st node = Except.ok { st with record_types := st.record_types ++ [t] } := by
  simp only [classifyNode, if_pos h0, hty]

/-- Unfolding lemma: classifying a `Record` node without a type attribute is the
unguarded dict indexing `attrib["type"]`, a `KeyError`. -/
theorem classifyNode_record_none {st : Classification} {node : RawNode}
    (h0 : node.tag = "Record") (hty : node.attrib.lookup "type" = none) :
    classifyNode st node = Except.error (PyErr.keyError "type") := by
  simp only [classifyNode, if_pos h0, hty]

/-- Every node that is not a `Record` without a type attribute classifies
without an error. -/
theorem classifyNode_ok_of_not_bad (st : Classification) {node : RawNode}
    (h : ¬ (node.tag = "Record" ∧ node.attrib.lookup "type" = none)) :
    ∃ st2, classifyNode st node = Except.ok st2 := by
  by_cases h0 : node.tag = "Record"
  · cases hty : node.attrib.lookup "type" with
    | none => exact absurd ⟨h0, hty⟩ h
    | some t => exact ⟨_, classifyNode_record_some h0 hty⟩
  · by_cases h1 : node.tag = "ActivitySummary" ∨ node.tag = "Workout"
    · exact ⟨_, by simp only [classifyNode, if_neg h0, if_pos h1]; rfl⟩
    · by_cases h2 : node.tag = "Export" ∨ node.tag = "Me"
      · exact ⟨_, by simp only [classifyNode, if_neg h0, if_neg h1, if_pos h2]; rfl⟩
      · exact ⟨_, by simp only [classifyNode, if_neg h0, if_neg h1, if_neg h2]; rfl⟩

/-- A `Record` node with no type attribute anywhere in the list makes the whole
classification fold raise `KeyError("type")`. -/
theorem count_record_types_keyerror :
    ∀ (nodes : List RawNode) (st : Classification),
      (∃ n ∈ nodes, n.tag = "Record" ∧ n.attrib.lookup "type" = none) →
      count_record_types st nodes = Except.error (PyErr.keyError "type") := by
  intro nodes
  induction nodes with
  | nil =>
    intro st h
    obtain ⟨n, hn, _⟩ := h
    cases hn
  | cons n0 rest ih =>
    intro st h
    by_cases hb : n0.tag = "Record" ∧ n0.attrib.lookup "type" = none
    · rw [count_record_types, classifyNode_record_none hb.1 hb.2]
    · obtain ⟨st2, hst2⟩ := classifyNode_ok_of_not_bad st hb
      rw [count_record_types, hst2]
      obtain ⟨n, hn, hbad⟩ := h
      rcases List.mem_cons.mp hn with rfl | hn2
      · exact absurd hbad hb
      · exact ih st2 ⟨n, hn2, hbad⟩

/-! ## Claims about classification -/

/-- Claim C5: an unrecognized tag produces one warning report, touches neither
counter used for output, and does not raise; `Export` and `Me` are skipped with
no warning; and a node with a tag outside the schema families is never written
to any output file. -/
theorem classify_unexpected_c5 :
    (∀ (st : Classification) (node : RawNode),
        node.tag ∉ (["Record", "ActivitySummary", "Workout", "Export", "Me"] : List String) →
        classifyNode st node =
          Except.ok { st with warnings :=
            st.warnings ++ ["Unexpected node of type " ++ node.tag ++ "."] }) ∧
    (∀ (st : Classification) (node : RawNode),
        node.tag = "Export" ∨ node.tag = "Me" → classifyNode st node = Except.ok st) ∧
    (∀ (rand user : String) (handles : Handles) (node : RawNode),
        node.tag ∉ (["Record", "ActivitySummary", "Workout"] : List String) →
        writeNode rand user handles node = Except.ok handles) := by
  refine ⟨?_, ?_, ?_⟩
  · intro st node h
    simp only [List.mem_cons, List.mem_singleton, not_or] at h
    obtain ⟨h1, h2, h3, h4, h5⟩ := h
    have h45 : ¬ (node.tag = "Export" ∨ node.tag = "Me") := not_or.mpr ⟨h4, by simpa using h5⟩
    simp only [classifyNode, if_neg h1, if_neg (not_or.mpr ⟨h2, h3⟩), if_neg h45]
  · intro st node h
    have h0 : ¬ node.tag = "Record" := by
      rcases h with he | he <;> rw [he] <;> decide
    have h1 : ¬ (node.tag = "ActivitySummary" ∨ node.tag = "Workout") := by
      rcases h with he | he <;> rw [he] <;> decide
    simp only [classifyNode, if_neg h0, if_neg h1, if_pos h]
  · intro rand user handles node h
    simp only [List.mem_cons, List.mem_singleton, not_or] at h
    obtain ⟨h1, h2, h3⟩ := h
    simp only [writeNode, if_neg (not_or.mpr ⟨h1, not_or.mpr ⟨h2, by simpa using h3⟩⟩)]

/-- Witness for C5 at concrete inputs. -/
theorem classify_unexpected_c5_witness :
    classifyNode initClassification ⟨"Foo", []⟩ =
      Except.ok { initClassification with
        warnings := initClassification.warnings ++
          ["Unexpected node of type " ++ "Foo" ++ "."] } ∧
    classifyNode initClassification ⟨"Export", []⟩ = Except.ok initClassification ∧
    writeNode "0.1" "User" [] ⟨"Foo", []⟩ = Except.ok [] :=
  ⟨classify_unexpected_c5.1 initClassification ⟨"Foo", []⟩ (by decide),
   classify_unexpected_c5.2.1 initClassification ⟨"Export", []⟩ (Or.inl rfl),
   classify_unexpected_c5.2.2 "0.1" "User" [] ⟨"Foo", []⟩ (by decide)⟩

/-- Claim C10: a document containing a `Record` node without a type attribute
makes extractor construction fail with `KeyError` during classification (the
unguarded `attrib["type"]`), even though the abbreviation pass that runs just
before explicitly tolerates the missing attribute. -/
theorem missing_type_c10 (rawNodes : List RawNode)
    (hbad : ∃ n ∈ rawNodes, n.tag = "Record" ∧ n.attrib.lookup "type" = none) :
    count_record_types initClassification (abbreviate_types rawNodes) =
      Except.error (PyErr.keyError "type") ∧
    (∀ rand user : String,
        runExtractor rand user rawNodes = Except.error (PyErr.keyError "type")) ∧
    (∀ node : RawNode, node.tag = "Record" → node.attrib.lookup "type" = none →
        abbreviateNode node = node) := by
  obtain ⟨n, hn, h1, h2⟩ := hbad
  have hpres : ∃ m ∈ abbreviate_types rawNodes,
      m.tag = "Record" ∧ m.attrib.lookup "type" = none := by
    refine ⟨n, ?_, h1, h2⟩
    exact List.mem_map.mpr ⟨n, hn, abbreviateNode_record_none h1 h2⟩
  have hcount := count_record_types_keyerror _ initClassification hpres
  refine ⟨hcount, ?_, fun node ha hb => abbreviateNode_record_none ha hb⟩
  intro rand user
  simp only [runExtractor]
  rw [hcount]

/-- Witness for C10 at a concrete one-node document. -/
theorem missing_type_c10_witness :
    count_record_types initClassification
        (abbreviate_types [⟨"Record", [("device", "w")]⟩]) =
      Except.error (PyErr.keyError "type") ∧
    runExtractor "0.1" "User" [⟨"Record", [("device", "w")]⟩] =
      Except.error (PyErr.keyError "type") :=
  have h := missing_type_c10 [⟨"Record", [("device", "w")]⟩]
    ⟨⟨"Record", [("device", "w")]⟩, by decide, by decide, by decide⟩
  ⟨h.1, h.2.1 "0.1" "User"⟩

/-! ## Lemmas about output files -/

/-- The filter admits the `HeartRate` kind, with its header. -/
theorem openEntry_hr : openEntry "HeartRate" = some ("HeartRate", [headerLine "HeartRate"]) := by
  rw [openEntry, if_pos rfl]

/-- The filter rejects every other kind. -/
theorem openEntry_ne {k : String} (h : ¬ k = "HeartRate") : openEntry k = none := by
  rw [openEntry, if_neg h]

/-- Anything found in the opened handles is the `HeartRate` file with its header. -/
theorem filterMap_openEntry_lookup :
    ∀ (l : List String) (k : String) (v : List String),
      (l.filterMap openEntry).lookup k = some v →
      k = "HeartRate" ∧ v = [headerLine "HeartRate"] := by
  intro l
  induction l with
  | nil => intro k v h; cases h
  | cons x rest ih =>
    intro k v h
    by_cases hx : x = "HeartRate"
    · subst hx
      simp only [List.filterMap_cons, openEntry_hr] at h
      rw [List.lookup_cons] at h
      by_cases hk : k = "HeartRate"
      · subst hk
        rw [beq_self_eq_true] at h
        have h2 : some [headerLine "HeartRate"] = some v := h
        cases h2
        exact ⟨rfl, rfl⟩
      · rw [show (k == "HeartRate") = false from beq_eq_false_iff_ne.mpr hk] at h
        exact ih k v h
    · simp only [List.filterMap_cons, openEntry_ne hx] at h
      exact ih k v h

/-- If `HeartRate` occurs among the kinds, its handle is opened with the header. -/
theorem filterMap_openEntry_mem :
    ∀ l : List String, "HeartRate" ∈ l →
      (l.filterMap openEntry).lookup "HeartRate" = some [headerLine "HeartRate"] := by
  intro l
  induction l with
  | nil => intro h; cases h
  | cons x rest ih =>
    intro h
    by_cases hx : x = "HeartRate"
    · subst hx
      simp only [List.filterMap_cons, openEntry_hr]
      exact List.lookup_cons_self
    · simp only [List.filterMap_cons, openEntry_ne hx]
      rcases List.mem_cons.mp h with heq | h2
      · exact absurd heq.symm hx
      · exact ih h2

/-- Looking up any other kind in the opened handles fails. -/
theorem filterMap_openEntry_ne :
    ∀ (l : List String) (k : String), ¬ k = "HeartRate" →
      (l.filterMap openEntry).lookup k = none := by
  intro l
  induction l with
  | nil => intro k hk; rfl
  | cons x rest ih =>
    intro k hk
    by_cases hx : x = "HeartRate"
    · subst hx
      simp only [List.filterMap_cons, openEntry_hr]
      rw [List.lookup_cons, show (k == "HeartRate") = false from beq_eq_false_iff_ne.mpr hk]
      exact ih k hk
    · simp only [List.filterMap_cons, openEntry_ne hx]
      exact ih k hk

/-! ## Lemmas about record writing -/

/-- A `HeartRate` node with an open handle renders a row and appends it. -/
theorem writeNode_hr {node : RawNode} (hr : isHeartRateNode node = true)
    {handles : Handles} {lines : List String}
    (hl : handles.lookup "HeartRate" = some lines) (rand user : String) :
    writeNode rand user handles node =
      match renderRow rand user node with
      | Except.error e => Except.error e
      | Except.ok line => Except.ok (setAssoc handles "HeartRate" (lines ++ [line])) := by
  have h1 : node.tag = "Record" ∧ node.attrib.lookup "type" = some "HeartRate" := by
    simpa [isHeartRateNode] using hr
  simp only [writeNode, if_pos (Or.inl h1.1), nodeKind, if_pos h1.1, h1.2, if_true]
  cases hrr : renderRow rand user node with
  | error e => rfl
  | ok line => simp only [hl]

/-- A `HeartRate` node with no open handle raises `KeyError` at the handle
lookup (after rendering its row). -/
theorem writeNode_hr_nohandle {node : RawNode} (hr : isHeartRateNode node = true)
    {handles : Handles} (hl : handles.lookup "HeartRate" = none) (rand user : String) :
    writeNode rand user handles node =
      match renderRow rand user node with
      | Except.error e => Except.error e
      | Except.ok _ => Except.error (PyErr.keyError "HeartRate") := by
  have h1 : node.tag = "Record" ∧ node.attrib.lookup "type" = some "HeartRate" := by
    simpa [isHeartRateNode] using hr
  simp only [writeNode, if_pos (Or.inl h1.1), nodeKind, if_pos h1.1, h1.2, if_true]
  cases hrr : renderRow rand user node with
  | error e => rfl
  | ok line => simp only [hl]

/-- A node that is not a `HeartRate` record either leaves the handles untouched
or (a `Record` node with no type attribute) raises `KeyError("type")`. -/
theorem writeNode_not_hr {node : RawNode} (hr : isHeartRateNode node = false)
    (rand user : String) (handles : Handles) :
    writeNode rand user handles node = Except.ok handles ∨
      writeNode rand user handles node = Except.error (PyErr.keyError "type") := by
  by_cases h0 : node.tag = "Record"
  · cases hty : node.attrib.lookup "type" with
    | none =>
      right
      simp only [writeNode, if_pos (Or.inl h0), nodeKind, if_pos h0, hty]
    | some t =>
      left
      have ht : ¬ t = "HeartRate" := by
        intro hc
        subst hc
        rw [isHeartRateNode, h0, hty] at hr
        simp at hr
      simp only [writeNode, if_pos (Or.inl h0), nodeKind, if_pos h0, hty]
      rw [if_neg ht]
  · by_cases h1 : node.tag = "ActivitySummary"
    · left
      simp only [writeNode, if_pos (Or.inr (Or.inl h1)), nodeKind, if_neg h0]
      rw [if_neg (by rw [h1]; decide)]
    · by_cases h2 : node.tag = "Workout"
      · left
        simp only [writeNode, if_pos (Or.inr (Or.inr h2)), nodeKind, if_neg h0]
        rw [if_neg (by rw [h2]; decide)]
      · left
        simp only [writeNode, if_neg (not_or.mpr ⟨h0, not_or.mpr ⟨h1, h2⟩⟩)]

/-- Rendering a node list preserves its length. -/
theorem renderRows_ok_length (rand user : String) :
    ∀ (l : List RawNode) (rows : List String),
      renderRows rand user l = Except.ok rows → rows.length = l.length := by
  intro l
  induction l with
  | nil => intro rows h; cases h; rfl
  | cons n rest ih =>
    intro rows h
    rw [renderRows] at h
    cases h1 : renderRow rand user n with
    | error e => simp only [h1] at h; cases h
    | ok line =>
      simp only [h1] at h
      cases h2 : renderRows rand user rest with
      | error e => simp only [h2] at h; cases h
      | ok rs =>
        simp only [h2] at h
        cases h
        simp [ih rs h2]

/-- Main invariant of `write_records` when the `HeartRate` handle is open: the
fold succeeds exactly when rendering each `HeartRate` node succeeds, and the
rows land at the `HeartRate` handle in document order, after what was there. -/
theorem write_records_hr (rand user : String) :
    ∀ (nodes : List RawNode) (handles : Handles) (lines0 : List String) (out : Handles),
      handles.lookup "HeartRate" = some lines0 →
      write_records rand user handles nodes = Except.ok out →
      ∃ rows, renderRows rand user (nodes.filter isHeartRateNode) = Except.ok rows ∧
        out.lookup "HeartRate" = some (lines0 ++ rows) := by
  intro nodes
  induction nodes with
  | nil =>
    intro handles lines0 out hl hw
    cases hw
    exact ⟨[], rfl, by simpa using hl⟩
  | cons n0 rest ih =>
    intro handles lines0 out hl hw
    rw [write_records] at hw
    cases hhr : isHeartRateNode n0 with
    | true =>
      rw [writeNode_hr hhr hl rand user] at hw
      cases hrr : renderRow rand user n0 with
      | error e => simp only [hrr] at hw; cases hw
      | ok line =>
        simp only [hrr] at hw
        have hl2 : (setAssoc handles "HeartRate" (lines0 ++ [line])).lookup "HeartRate" =
            some (lines0 ++ [line]) := lookup_setAssoc _ hl
        obtain ⟨rows, hrows, hout⟩ := ih _ _ _ hl2 hw
        refine ⟨line :: rows, ?_, ?_⟩
        · rw [List.filter_cons_of_pos hhr, renderRows, hrr]
          simp only [hrows]
        · rw [hout]
          simp
    | false =>
      rcases writeNode_not_hr hhr rand user handles with hok | herr
      · rw [hok] at hw
        simp only at hw
        obtain ⟨rows, hrows, hout⟩ := ih _ _ _ hl hw
        refine ⟨rows, ?_, hout⟩
        rw [List.filter_cons_of_neg (by simp [hhr])]
        exact hrows
      · rw [herr] at hw
        simp only at hw
        cases hw

/-- Invariant of `write_records` when no `HeartRate` handle is open: the fold
can only succeed if no node classifies as `HeartRate`, and then nothing is ever
written anywhere. -/
theorem write_records_nohr (rand user : String) :
    ∀ (nodes : List RawNode) (handles : Handles) (out : Handles),
      handles.lookup "HeartRate" = none →
      write_records rand user handles nodes = Except.ok out →
      nodes.filter isHeartRateNode = [] ∧ out.lookup "HeartRate" = none := by
  intro nodes
  induction nodes with
  | nil =>
    intro handles out hl hw
    cases hw
    exact ⟨rfl, hl⟩
  | cons n0 rest ih =>
    intro handles out hl hw
    rw [write_records] at hw
    cases hhr : isHeartRateNode n0 with
    | true =>
      rw [writeNode_hr_nohandle hhr hl rand user] at hw
      cases hrr : renderRow rand user n0 with
      | error e => simp only [hrr] at hw; cases hw
      | ok line => simp only [hrr] at hw; cases hw
    | false =>
      rcases writeNode_not_hr hhr rand user handles with hok | herr
      · rw [hok] at hw
        simp only at hw
        obtain ⟨hfil, hout⟩ := ih handles out hl hw
        refine ⟨?_, hout⟩
        rw [List.filter_cons_of_neg (by simp [hhr])]
        exact hfil
      · rw [herr] at hw
        simp only at hw
        cases hw

/-! ## Claims about the Extractor -/

/-- Claim C4: the header line written on opening a kind's output file is
exactly `username,` followed by the comma-join of the schema field names of
that kind's family, newline-terminated with nothing else; for `HeartRate`
(family `Record`) the line is exactly `username,device,startDate,value`. -/
theorem header_c4 :
    (∀ (cls : Classification) (k : String) (lines : List String),
        (open_for_writing cls).lookup k = some lines →
        k = "HeartRate" ∧
        lines = ["username," ++
          String.intercalate "," (((FIELDS.lookup (headerType k)).getD []).map Prod.fst) ++
          "\n"]) ∧
    headerLine "HeartRate" = "username,device,startDate,value\n" := by
  constructor
  · intro cls k lines h
    rw [open_for_writing] at h
    obtain ⟨hk, hv⟩ := filterMap_openEntry_lookup _ k lines h
    subst hk
    exact ⟨rfl, hv⟩
  · decide

/-- Witness for C4 at a concrete classification. -/
theorem header_c4_witness :
    (open_for_writing ⟨["HeartRate"], [], []⟩).lookup "HeartRate" =
        some ["username,device,startDate,value\n"] ∧
    ("HeartRate" = "HeartRate" ∧
      ["username,device,startDate,value\n"] =
        ["username," ++
          String.intercalate ","
            (((FIELDS.lookup (headerType "HeartRate")).getD []).map Prod.fst) ++ "\n"]) :=
  ⟨by decide,
   header_c4.1 ⟨["HeartRate"], [], []⟩ "HeartRate" ["username,device,startDate,value\n"]
     (by decide)⟩

/-- Claim C6: kinds other than `HeartRate` get no output file and no rows and
cause no error: `open_for_writing` never opens a handle for them, and
`writeNode` passes such nodes through without touching the handles (in
particular without any handle lookup that could fail). -/
theorem filter_guard_c6 :
    (∀ (cls : Classification) (k : String), ¬ k = "HeartRate" →
        (open_for_writing cls).lookup k = none) ∧
    (∀ (rand user : String) (handles : Handles) (node : RawNode) (kind : String),
        nodeKind node = some kind → ¬ kind = "HeartRate" →
        writeNode rand user handles node = Except.ok handles) := by
  constructor
  · intro cls k hk
    rw [open_for_writing]
    exact filterMap_openEntry_ne _ k hk
  · intro rand user handles node kind hkind hne
    by_cases htag : node.tag = "Record" ∨ node.tag = "ActivitySummary" ∨ node.tag = "Workout"
    · simp only [writeNode, if_pos htag, hkind]
      rw [if_neg hne]
    · simp only [writeNode, if_neg htag]

/-- Witness for C6 at concrete inputs: a `BodyMass` record is not opened and
not written. -/
theorem filter_guard_c6_witness :
    (open_for_writing ⟨["BodyMass"], [], []⟩).lookup "BodyMass" = none ∧
    writeNode "0.1" "User" [] ⟨"Record", [("type", "BodyMass")]⟩ = Except.ok [] :=
  ⟨filter_guard_c6.1 ⟨["BodyMass"], [], []⟩ "BodyMass" (by decide),
   filter_guard_c6.2 "0.1" "User" [] ⟨"Record", [("type", "BodyMass")]⟩ "BodyMass"
     (by decide) (by decide)⟩

/-- Claim C2: when `extract` completes, the `HeartRate` output file holds the
header followed by one rendered row per `HeartRate`-classified node, in
original document order, each row being the username followed by the formatted
schema fields of the node's tag family joined by commas; in particular the
data-row count equals the number of `HeartRate`-classified nodes.  (When no
`HeartRate` node exists no file is opened and there are no rows.) -/
theorem write_rows_c2 (rand user : String) (rawNodes : List RawNode) (out : Handles)
    (h : runExtractor rand user rawNodes = Except.ok out) :
    ∃ rows,
      renderRows rand user ((abbreviate_types rawNodes).filter isHeartRateNode) =
        Except.ok rows ∧
      rows.length = ((abbreviate_types rawNodes).filter isHeartRateNode).length ∧
      (out.lookup "HeartRate" = some (headerLine "HeartRate" :: rows) ∨
       (out.lookup "HeartRate" = none ∧ rows = [])) := by
  cases hc : count_record_types initClassification (abbreviate_types rawNodes) with
  | error e =>
    simp only [runExtractor, hc] at h
    cases h
  | ok cls =>
    simp only [runExtractor, hc] at h
    cases hhl : (open_for_writing cls).lookup "HeartRate" with
    | some lines =>
      have hlines : lines = [headerLine "HeartRate"] := by
        rw [open_for_writing] at hhl
        exact (filterMap_openEntry_lookup _ _ _ hhl).2
      subst hlines
      obtain ⟨rows, hrows, hout⟩ :=
        write_records_hr rand user (abbreviate_types rawNodes) _ _ out hhl h
      refine ⟨rows, hrows, renderRows_ok_length rand user _ rows hrows, Or.inl ?_⟩
      rw [hout]
      simp
    | none =>
      obtain ⟨hfil, hout⟩ :=
        write_records_nohr rand user (abbreviate_types rawNodes) _ out hhl h
      refine ⟨[], ?_, ?_, Or.inr ⟨hout, rfl⟩⟩
      · rw [hfil]; rfl
      · rw [hfil]; rfl

/-- Witness for C2 on a concrete one-record document. -/
theorem write_rows_c2_witness :
    runExtractor "0.5" "User"
        [⟨"Record", [("type", "HKQuantityTypeIdentifierHeartRate"), ("device", "Watch"),
                     ("startDate", "2020-01-01 10:00"), ("value", "72")]⟩] =
      Except.ok [("HeartRate",
        ["username,device,startDate,value\n", "User,0.5,2020-01-01 10:00,72\n"])] ∧
    (∃ rows,
      renderRows "0.5" "User"
          ((abbreviate_types
              [⟨"Record", [("type", "HKQuantityTypeIdentifierHeartRate"), ("device", "Watch"),
                           ("startDate", "2020-01-01 10:00"), ("value", "72")]⟩]).filter
            isHeartRateNode) = Except.ok rows ∧
      rows.length =
        ((abbreviate_types
            [⟨"Record", [("type", "HKQuantityTypeIdentifierHeartRate"), ("device", "Watch"),
                         ("startDate", "2020-01-01 10:00"), ("value", "72")]⟩]).filter
          isHeartRateNode).length ∧
      ((([("HeartRate",
          ["username,device,startDate,value\n", "User,0.5,2020-01-01 10:00,72\n"])] :
            Handles).lookup "HeartRate" = some (headerLine "HeartRate" :: rows)) ∨
       ((([("HeartRate",
          ["username,device,startDate,value\n", "User,0.5,2020-01-01 10:00,72\n"])] :
            Handles).lookup "HeartRate" = none) ∧ rows = []))) :=
  ⟨by decide,
   write_rows_c2 "0.5" "User"
     [⟨"Record", [("type", "HKQuantityTypeIdentifierHeartRate"), ("device", "Watch"),
                  ("startDate", "2020-01-01 10:00"), ("value", "72")]⟩]
     [("HeartRate",
        ["username,device,startDate,value\n", "User,0.5,2020-01-01 10:00,72\n"])]
     (by decide)⟩
